import Mathlib

/-!
Verification of the target-group reconciler of castai-eks-target-groups-binder.

The Python source (src/main.py) is embedded shallowly:

* `register_instance_to_target_groups` mirrors the function of the same name.
  The AWS elbv2 client is abstracted as an `AwsEnv`: the paginated
  target-group listing is the list of delivered pages `pages` followed by an
  optional listing error `pageErr` (a listing failure in the source raises
  after the already-delivered pages were processed); `health`, `regOutcome`
  and `deregOutcome` give the outcome of `describe_target_health`,
  `register_targets` and `deregister_targets` per target-group ARN.
  Besides the `results` dictionary the embedding returns the trace of
  provider mutation calls actually issued (the source's commented-out
  `deregister_targets` call in the empty-desired branch therefore issues
  nothing).
* `get_target_groups_for_node` mirrors the function of the same name, with
  the fetched JSON abstracted as an optional record of raw entries whose
  `arn`/`port` fields may be absent (Python truthiness: an empty string and
  the number 0 are falsy).
* `main` mirrors one cycle of the `main()` function: node inventory fetch,
  eligibility filter, per-node config fetch and reconcile, returning the
  provider mutation-call trace of the whole cycle.
-/

namespace TGBinder

/-- A desired target-group binding: `{'arn': ..., 'port': ...}`. -/
structure TG where
  arn : String
  port : Nat
deriving DecidableEq, Repr

/-- A failure record appended to `results['failed']`; `arn = none` models the
records that carry no `'arn'` key (whole-listing failures). -/
structure FailureRec where
  arn : Option String
  operation : String
  error : String
deriving DecidableEq, Repr

/-- The `results` dictionary of `register_instance_to_target_groups`. -/
structure ReconcileResult where
  registered : List String
  already_registered : List String
  deregistered : List String
  failed : List FailureRec
deriving DecidableEq, Repr

/-- A provider mutation call actually issued to the elbv2 client. -/
inductive ProviderCall where
  | register (arn : String) (instance_id : String)
  | deregister (arn : String) (instance_id : String)
deriving DecidableEq, Repr

/-- The instance id a mutation call was issued for. -/
def callInstanceId : ProviderCall → String
  | ProviderCall.register _ i => i
  | ProviderCall.deregister _ i => i

/-- The target-group ARN a mutation call was issued for. -/
def callArn : ProviderCall → String
  | ProviderCall.register a _ => a
  | ProviderCall.deregister a _ => a

/-- Abstraction of the elbv2 client seen by one reconcile call:
`pages` are the pages the `describe_target_groups` paginator delivers
(each a list of `TargetGroupArn`s), `pageErr` is the error the pagination
raises after those pages (if any), `health arn` is the outcome of
`describe_target_health` (the list of target ids on success), and
`regOutcome`/`deregOutcome` the outcomes of `register_targets` /
`deregister_targets`. -/
structure AwsEnv where
  pages : List (List String)
  pageErr : Option String
  health : String → Except String (List String)
  regOutcome : String → Except String Unit
  deregOutcome : String → Except String Unit

/-- All ARNs delivered by the paginator, in order. -/
def listedArns (env : AwsEnv) : List String := env.pages.flatten

/-- `results = {'registered': [], 'already_registered': [], 'deregistered': [], 'failed': []}` -/
def emptyResults : ReconcileResult := ⟨[], [], [], []⟩

/-- Body of the per-group loop in the empty-`target_groups` branch
(src/main.py lines 81-91): on a successful health check a member ARN is
appended to `deregistered` (the actual `deregister_targets` call is
commented out in the source), a health-check failure is recorded with
operation `deregister`. -/
def emptyScanStep (env : AwsEnv) (instance_id : String)
    (results : ReconcileResult) (tg_arn : String) : ReconcileResult :=
  match env.health tg_arn with
  | Except.ok targets =>
      if targets.any (fun t => t == instance_id) then
        { results with deregistered := results.deregistered ++ [tg_arn] }
      else results
  | Except.error e =>
      { results with failed := results.failed ++ [⟨some tg_arn, "deregister", e⟩] }

/-- Body of the snapshot loop in the non-empty branch (src/main.py lines
102-112): a member ARN is appended to `already_registered`, a health-check
failure is recorded with operation `describe_health` and the loop continues. -/
def snapshotStep (env : AwsEnv) (instance_id : String)
    (results : ReconcileResult) (tg_arn : String) : ReconcileResult :=
  match env.health tg_arn with
  | Except.ok targets =>
      if targets.any (fun t => t == instance_id) then
        { results with already_registered := results.already_registered ++ [tg_arn] }
      else results
  | Except.error e =>
      { results with failed := results.failed ++ [⟨some tg_arn, "describe_health", e⟩] }

/-- Body of the deregistration loop (src/main.py lines 120-128): for an ARN
of `already_registered` not among the desired ARNs, a `deregister_targets`
call is issued; success appends to `deregistered`, failure records operation
`deregister`. -/
def deregStep (env : AwsEnv) (instance_id : String) (desired_arns : List String)
    (s : ReconcileResult × List ProviderCall) (tg : String) :
    ReconcileResult × List ProviderCall :=
  if desired_arns.contains tg then s
  else
    match env.deregOutcome tg with
    | Except.ok _ =>
        ({ s.1 with deregistered := s.1.deregistered ++ [tg] },
         s.2 ++ [ProviderCall.deregister tg instance_id])
    | Except.error e =>
        ({ s.1 with failed := s.1.failed ++ [⟨some tg, "deregister", e⟩] },
         s.2 ++ [ProviderCall.deregister tg instance_id])

/-- Body of the registration loop (src/main.py lines 132-140): for a desired
entry whose ARN is not in `already_registered`, a `register_targets` call is
issued; success appends to `registered`, failure records operation
`register`. -/
def regStep (env : AwsEnv) (instance_id : String)
    (s : ReconcileResult × List ProviderCall) (tg : TG) :
    ReconcileResult × List ProviderCall :=
  if s.1.already_registered.contains tg.arn then s
  else
    match env.regOutcome tg.arn with
    | Except.ok _ =>
        ({ s.1 with registered := s.1.registered ++ [tg.arn] },
         s.2 ++ [ProviderCall.register tg.arn instance_id])
    | Except.error e =>
        ({ s.1 with failed := s.1.failed ++ [⟨some tg.arn, "register", e⟩] },
         s.2 ++ [ProviderCall.register tg.arn instance_id])

/-- `register_instance_to_target_groups(aws_region, instance_id, target_groups, logger)`
(src/main.py lines 68-142), paired with the trace of issued provider
mutation calls. -/
def register_instance_to_target_groups (env : AwsEnv) (instance_id : String)
    (target_groups : List TG) : ReconcileResult × List ProviderCall :=
  if target_groups.isEmpty then
    let scanned := (listedArns env).foldl (emptyScanStep env instance_id) emptyResults
    match env.pageErr with
    | some e => ({ scanned with failed := scanned.failed ++ [⟨none, "deregister", e⟩] }, [])
    | none => (scanned, [])
  else
    let snap := (listedArns env).foldl (snapshotStep env instance_id) emptyResults
    match env.pageErr with
    | some e => ({ snap with failed := snap.failed ++ [⟨none, "describe_target_groups", e⟩] }, [])
    | none =>
      let afterDereg := snap.already_registered.foldl
        (deregStep env instance_id (target_groups.map TG.arn)) (snap, [])
      target_groups.foldl (regStep env instance_id) afterDereg

/-- A raw target-group entry of the node-configuration response; either
field may be absent. -/
structure RawTG where
  arn : Option String
  port : Option Nat
deriving DecidableEq, Repr

/-- The node-configuration response body: `data.get('eks', {}).get('targetGroups', [])`. -/
structure NodeConfigData where
  targetGroups : List RawTG
deriving DecidableEq, Repr

/-- Python truthiness of `tg.get('arn')`: present and not the empty string. -/
def truthyArn : Option String → Bool
  | some s => s ≠ ""
  | none => false

/-- Python truthiness of `tg.get('port')`: present and not zero. -/
def truthyPort : Option Nat → Bool
  | some p => p ≠ 0
  | none => false

/-- `get_target_groups_for_node` (src/main.py lines 50-63): `none` models a
falsy response body (`if not data: return []`); otherwise
`[{'arn': tg['arn'], 'port': tg['port']} for tg in target_groups if tg.get('arn') and tg.get('port')]`. -/
def get_target_groups_for_node (data : Option NodeConfigData) : List TG :=
  match data with
  | none => []
  | some d =>
      d.targetGroups.filterMap (fun tg =>
        match tg.arn, tg.port with
        | some a, some p => if a ≠ "" ∧ p ≠ 0 then some ⟨a, p⟩ else none
        | some _, none => none
        | none, _ => none)

/-- A node record of the inventory response (src/main.py lines 166-176):
`managedBy` is `labels.get('provisioner.cast.ai/managed-by')`, `configId` is
`labels.get('provisioner.cast.ai/node-configuration-id')`, `phase` is
`node['state']['phase']`. -/
structure Node where
  id : String
  instanceId : String
  name : String
  phase : String
  managedBy : Option String
  configId : Option String
deriving DecidableEq, Repr

/-- The eligibility test of src/main.py line 170:
`labels.get('provisioner.cast.ai/managed-by') == "cast.ai" and node_state == "ready"`. -/
def eligibleNode (n : Node) : Bool :=
  n.managedBy == some "cast.ai" && n.phase == "ready"

/-- The external world seen by one `main()` cycle: the node-inventory fetch
outcome, the per-config-id node-configuration fetch outcome, and the AWS
environment per instance id. -/
structure MainEnv where
  nodesResult : Except String (List Node)
  nodeConfig : Option String → Except String (Option NodeConfigData)
  aws : String → AwsEnv

/-- Processing of one node inside the `for node in cluster_nodes` loop
(src/main.py lines 166-197), projected to the provider mutation calls it
issues: an ineligible node is only logged; a config-fetch failure skips the
node; otherwise the node is reconciled. -/
def processNode (menv : MainEnv) (node : Node) : List ProviderCall :=
  if eligibleNode node then
    match menv.nodeConfig node.configId with
    | Except.error _ => []
    | Except.ok data =>
        let target_groups := get_target_groups_for_node data
        (register_instance_to_target_groups (menv.aws node.instanceId)
          node.instanceId target_groups).2
  else []

/-- One cycle of `main()` (src/main.py lines 145-197), projected to the
provider mutation calls it issues: a failed or empty inventory fetch does no
work, otherwise each node is processed in order. -/
def main (menv : MainEnv) : List ProviderCall :=
  match menv.nodesResult with
  | Except.error _ => []
  | Except.ok cluster_nodes =>
      cluster_nodes.foldl (fun acc node => acc ++ processNode menv node) []

/-! ### Derived descriptions of the reconcile phases -/

/-- Does the health listing of `a` report `instance_id` as a member? -/
def isMember (env : AwsEnv) (instance_id : String) (a : String) : Bool :=
  match env.health a with
  | Except.ok targets => targets.any (fun t => t == instance_id)
  | Except.error _ => false

/-- The membership snapshot: the listed ARNs whose health listing reports
`instance_id` as a member. -/
def memberArns (env : AwsEnv) (instance_id : String) : List String :=
  (listedArns env).filter (isMember env instance_id)

/-- The failure record a health-check failure on `a` produces (tagged `tag`). -/
def healthFailFn (env : AwsEnv) (tag : String) (a : String) : Option FailureRec :=
  match env.health a with
  | Except.error e => some ⟨some a, tag, e⟩
  | Except.ok _ => none

/-- All health-check failure records over the listed ARNs. -/
def healthFailRecs (env : AwsEnv) (tag : String) : List FailureRec :=
  (listedArns env).filterMap (healthFailFn env tag)

/-- The failure record a listing failure produces (tagged `tag`), if any. -/
def pageErrRecs (env : AwsEnv) (tag : String) : List FailureRec :=
  match env.pageErr with
  | some e => [⟨none, tag, e⟩]
  | none => []

/-- Does the deregister call on `a` succeed? -/
def deregOkB (env : AwsEnv) (a : String) : Bool :=
  match env.deregOutcome a with
  | Except.ok _ => true
  | Except.error _ => false

/-- The failure record a deregister failure on `a` produces. -/
def deregFailFn (env : AwsEnv) (a : String) : Option FailureRec :=
  match env.deregOutcome a with
  | Except.error e => some ⟨some a, "deregister", e⟩
  | Except.ok _ => none

/-- Does the register call on `a` succeed? -/
def regOkB (env : AwsEnv) (a : String) : Bool :=
  match env.regOutcome a with
  | Except.ok _ => true
  | Except.error _ => false

/-- The failure record a register failure on the entry `tg` produces. -/
def regFailFn (env : AwsEnv) (tg : TG) : Option FailureRec :=
  match env.regOutcome tg.arn with
  | Except.error e => some ⟨some tg.arn, "register", e⟩
  | Except.ok _ => none

/-- The ARNs of the desired target groups. -/
def desiredArns (target_groups : List TG) : List String := target_groups.map TG.arn

/-- The member ARNs not among the desired ARNs: those the non-empty branch
issues a deregister call for. -/
def deregTargets (env : AwsEnv) (instance_id : String) (target_groups : List TG) :
    List String :=
  (memberArns env instance_id).filter (fun a => !((desiredArns target_groups).contains a))

/-- The desired entries whose ARN is not a member ARN: those the non-empty
branch issues a register call for. -/
def regTargets (env : AwsEnv) (instance_id : String) (target_groups : List TG) :
    List TG :=
  target_groups.filter (fun tg => !((memberArns env instance_id).contains tg.arn))

/-- The ARNs whose deregister call succeeds. -/
def deregSuccessArns (env : AwsEnv) (instance_id : String) (target_groups : List TG) :
    List String :=
  (deregTargets env instance_id target_groups).filter (deregOkB env)

/-- The deregister failure records. -/
def deregFailRecs (env : AwsEnv) (instance_id : String) (target_groups : List TG) :
    List FailureRec :=
  (deregTargets env instance_id target_groups).filterMap (deregFailFn env)

/-- The deregister calls issued by the non-empty branch. -/
def deregCalls (env : AwsEnv) (instance_id : String) (target_groups : List TG) :
    List ProviderCall :=
  (deregTargets env instance_id target_groups).map
    (fun a => ProviderCall.deregister a instance_id)

/-- The ARNs whose register call succeeds. -/
def regSuccessArns (env : AwsEnv) (instance_id : String) (target_groups : List TG) :
    List String :=
  ((regTargets env instance_id target_groups).filter (fun tg => regOkB env tg.arn)).map TG.arn

/-- The register failure records. -/
def regFailRecs (env : AwsEnv) (instance_id : String) (target_groups : List TG) :
    List FailureRec :=
  (regTargets env instance_id target_groups).filterMap (regFailFn env)

/-- The register calls issued by the non-empty branch. -/
def regCalls (env : AwsEnv) (instance_id : String) (target_groups : List TG) :
    List ProviderCall :=
  (regTargets env instance_id target_groups).map
    (fun tg => ProviderCall.register tg.arn instance_id)

/-! ### The spec's description of the node-configuration filter -/

/-- The specified behaviour of `get_target_groups_for_node`, written from the
spec's words: keep exactly the entries whose `arn` and `port` are both
present and non-empty (Python truthiness: a present empty string or a
present zero port is falsy), project each to its `arn` and `port`, and
preserve the source order. -/
def claimTargetGroups (data : Option NodeConfigData) : List TG :=
  match data with
  | none => []
  | some d =>
      (d.targetGroups.filter (fun tg => truthyArn tg.arn && truthyPort tg.port)).map
        (fun tg => ⟨tg.arn.getD "", tg.port.getD 0⟩)

/-! ### Concrete instances used by witnesses and counterexamples -/

/-- One target group `"A"`; the node `"i"` is a member; every call succeeds. -/
def envMemberA : AwsEnv :=
  ⟨[["A"]], none, fun _ => Except.ok ["i"],
   fun _ => Except.ok (), fun _ => Except.ok ()⟩

/-- Groups `"A"` and `"C"`, the node `"i"` a member of both; all calls succeed. -/
def envMemberAC : AwsEnv :=
  ⟨[["A", "C"]], none, fun _ => Except.ok ["i"],
   fun _ => Except.ok (), fun _ => Except.ok ()⟩

/-- Groups `"A"` and `"B"`, the node `"i"` a member of both; all calls succeed. -/
def envMemberAB : AwsEnv :=
  ⟨[["A", "B"]], none, fun _ => Except.ok ["i"],
   fun _ => Except.ok (), fun _ => Except.ok ()⟩

/-- The page holding group `"A"` is delivered, then the listing fails;
the node `"i"` is a member of `"A"`. -/
def envPageFail : AwsEnv :=
  ⟨[["A"]], some "boom", fun _ => Except.ok ["i"],
   fun _ => Except.ok (), fun _ => Except.ok ()⟩

/-- Groups `"C"` and `"D"`; the health query fails on `"C"` and reports the
node `"i"` a member of `"D"`; all mutation calls succeed. -/
def envCD : AwsEnv :=
  ⟨[["C", "D"]], none,
   fun a => if a == "C" then Except.error "x" else Except.ok ["i"],
   fun _ => Except.ok (), fun _ => Except.ok ()⟩

/-- No target groups listed; registering `"B"` fails, all else succeeds. -/
def envRegFailB : AwsEnv :=
  ⟨[], none, fun _ => Except.ok [],
   fun a => if a == "B" then Except.error "regboom" else Except.ok (),
   fun _ => Except.ok ()⟩

/-- An eligible node: managed by cast.ai and ready. -/
def nodeEligible : Node :=
  ⟨"n1", "i-eligible", "node-1", "ready", some "cast.ai", some "cfg-1"⟩

/-- A node not managed by cast.ai (hence ineligible). -/
def nodeUnmanaged : Node :=
  ⟨"n2", "i-unmanaged", "node-2", "ready", none, some "cfg-2"⟩

/-- A cast.ai-managed node that is not ready (hence ineligible). -/
def nodeNotReady : Node :=
  ⟨"n3", "i-notready", "node-3", "provisioning", some "cast.ai", some "cfg-3"⟩

/-- A cycle environment: one eligible and two ineligible nodes; every node
configuration asks for group `"B"` on port 80; the provider is `envMemberA`
for every instance, so the eligible node deregisters from `"A"` and
registers to `"B"`. -/
def menvCycle : MainEnv :=
  ⟨Except.ok [nodeEligible, nodeUnmanaged, nodeNotReady],
   fun _ => Except.ok (some ⟨[⟨some "B", some 80⟩]⟩),
   fun _ => envMemberA⟩

theorem emptyScan_foldl (env : AwsEnv) (iid : String) (l : List String)
    (r : ReconcileResult) :
    l.foldl (emptyScanStep env iid) r =
    { r with deregistered := r.deregistered ++ l.filter (isMember env iid),
             failed := r.failed ++ l.filterMap (healthFailFn env "deregister") } := by
  induction l generalizing r with
  | nil => simp
  | cons a t ih =>
    rw [List.foldl_cons, ih]
    cases h : env.health a with
    | ok targets =>
      cases hm : targets.any (fun t => t == iid) with
      | true =>
        have h1 : isMember env iid a = true := by simp [isMember, h, hm]
        simp [emptyScanStep, h, hm, healthFailFn, List.filter_cons, h1]
      | false =>
        have h1 : isMember env iid a = false := by simp [isMember, h, hm]
        simp [emptyScanStep, h, hm, healthFailFn, List.filter_cons, h1]
    | error e =>
      have h1 : isMember env iid a = false := by simp [isMember, h]
      simp [emptyScanStep, h, healthFailFn, List.filter_cons, h1]

theorem snapshot_foldl (env : AwsEnv) (iid : String) (l : List String)
    (r : ReconcileResult) :
    l.foldl (snapshotStep env iid) r =
    { r with already_registered := r.already_registered ++ l.filter (isMember env iid),
             failed := r.failed ++ l.filterMap (healthFailFn env "describe_health") } := by
  induction l generalizing r with
  | nil => simp
  | cons a t ih =>
    rw [List.foldl_cons, ih]
    cases h : env.health a with
    | ok targets =>
      cases hm : targets.any (fun t => t == iid) with
      | true =>
        have h1 : isMember env iid a = true := by simp [isMember, h, hm]
        simp [snapshotStep, h, hm, healthFailFn, List.filter_cons, h1]
      | false =>
        have h1 : isMember env iid a = false := by simp [isMember, h, hm]
        simp [snapshotStep, h, hm, healthFailFn, List.filter_cons, h1]
    | error e =>
      have h1 : isMember env iid a = false := by simp [isMember, h]
      simp [snapshotStep, h, healthFailFn, List.filter_cons, h1]

theorem dereg_foldl (env : AwsEnv) (iid : String) (dArns : List String)
    (l : List String) (r : ReconcileResult) (calls : List ProviderCall) :
    l.foldl (deregStep env iid dArns) (r, calls) =
    ({ r with
        deregistered := r.deregistered ++
          (l.filter (fun a => !(dArns.contains a))).filter (deregOkB env),
        failed := r.failed ++
          (l.filter (fun a => !(dArns.contains a))).filterMap (deregFailFn env) },
     calls ++ (l.filter (fun a => !(dArns.contains a))).map
        (fun a => ProviderCall.deregister a iid)) := by
  induction l generalizing r calls with
  | nil => simp
  | cons a t ih =>
    rw [List.foldl_cons]
    cases hc : dArns.contains a with
    | true =>
      have hc2 : a ∈ dArns := by simpa using hc
      have hstep : deregStep env iid dArns (r, calls) a = (r, calls) := by
        simp [deregStep, hc2]
      rw [hstep, ih]
      simp [List.filter_cons, hc2]
    | false =>
      have hc2 : a ∉ dArns := by simpa using hc
      cases h : env.deregOutcome a with
      | ok u =>
        have hok : deregOkB env a = true := by simp [deregOkB, h]
        have hstep : deregStep env iid dArns (r, calls) a =
            ({ r with deregistered := r.deregistered ++ [a] },
             calls ++ [ProviderCall.deregister a iid]) := by
          simp [deregStep, hc2, h]
        rw [hstep, ih]
        simp [List.filter_cons, hc2, hok, deregFailFn, h]
      | error e =>
        have hok : deregOkB env a = false := by simp [deregOkB, h]
        have hstep : deregStep env iid dArns (r, calls) a =
            ({ r with failed := r.failed ++ [⟨some a, "deregister", e⟩] },
             calls ++ [ProviderCall.deregister a iid]) := by
          simp [deregStep, hc2, h]
        rw [hstep, ih]
        simp [List.filter_cons, hc2, hok, deregFailFn, h]

theorem reg_foldl (env : AwsEnv) (iid : String)
    (l : List TG) (r : ReconcileResult) (calls : List ProviderCall) :
    l.foldl (regStep env iid) (r, calls) =
    ({ r with
        registered := r.registered ++
          ((l.filter (fun tg => !(r.already_registered.contains tg.arn))).filter
            (fun tg => regOkB env tg.arn)).map TG.arn,
        failed := r.failed ++
          (l.filter (fun tg => !(r.already_registered.contains tg.arn))).filterMap
            (regFailFn env) },
     calls ++ (l.filter (fun tg => !(r.already_registered.contains tg.arn))).map
        (fun tg => ProviderCall.register tg.arn iid)) := by
  induction l generalizing r calls with
  | nil => simp
  | cons tg t ih =>
    rw [List.foldl_cons]
    cases hc : r.already_registered.contains tg.arn with
    | true =>
      have hc2 : tg.arn ∈ r.already_registered := by simpa using hc
      have hstep : regStep env iid (r, calls) tg = (r, calls) := by
        simp [regStep, hc2]
      rw [hstep, ih]
      simp [List.filter_cons, hc2]
    | false =>
      have hc2 : tg.arn ∉ r.already_registered := by simpa using hc
      cases h : env.regOutcome tg.arn with
      | ok u =>
        have hok : regOkB env tg.arn = true := by simp [regOkB, h]
        have hstep : regStep env iid (r, calls) tg =
            ({ r with registered := r.registered ++ [tg.arn] },
             calls ++ [ProviderCall.register tg.arn iid]) := by
          simp [regStep, hc2, h]
        rw [hstep, ih]
        simp [List.filter_cons, hc2, hok, regFailFn, h]
      | error e =>
        have hok : regOkB env tg.arn = false := by simp [regOkB, h]
        have hstep : regStep env iid (r, calls) tg =
            ({ r with failed := r.failed ++ [⟨some tg.arn, "register", e⟩] },
             calls ++ [ProviderCall.register tg.arn iid]) := by
          simp [regStep, hc2, h]
        rw [hstep, ih]
        simp [List.filter_cons, hc2, hok, regFailFn, h]

/-- Closed form of the empty-`target_groups` branch. -/
theorem reconcile_empty_eq (env : AwsEnv) (iid : String) :
    register_instance_to_target_groups env iid [] =
    (⟨[], [], memberArns env iid,
      healthFailRecs env "deregister" ++ pageErrRecs env "deregister"⟩, []) := by
  unfold register_instance_to_target_groups
  rw [show ([] : List TG).isEmpty = true from rfl]
  simp only [if_pos]
  rw [emptyScan_foldl]
  cases h : env.pageErr with
  | some e => simp [emptyResults, memberArns, healthFailRecs, pageErrRecs, h, listedArns]
  | none => simp [emptyResults, memberArns, healthFailRecs, pageErrRecs, h, listedArns]

/-- Closed form of the non-empty branch when the target-group listing fails. -/
theorem reconcile_pageErr_eq (env : AwsEnv) (iid : String) (target_groups : List TG)
    (hne : target_groups ≠ []) (e : String) (hp : env.pageErr = some e) :
    register_instance_to_target_groups env iid target_groups =
    (⟨[], memberArns env iid, [],
      healthFailRecs env "describe_health" ++ [⟨none, "describe_target_groups", e⟩]⟩,
     []) := by
  unfold register_instance_to_target_groups
  rw [show target_groups.isEmpty = false by simpa using hne]
  simp only [Bool.false_eq_true, if_false]
  rw [snapshot_foldl, hp]
  simp [emptyResults, memberArns, healthFailRecs, listedArns]

/-- Closed form of the non-empty branch when the target-group listing succeeds. -/
theorem reconcile_ok_eq (env : AwsEnv) (iid : String) (target_groups : List TG)
    (hne : target_groups ≠ []) (hp : env.pageErr = none) :
    register_instance_to_target_groups env iid target_groups =
    (⟨regSuccessArns env iid target_groups,
      memberArns env iid,
      deregSuccessArns env iid target_groups,
      healthFailRecs env "describe_health" ++ deregFailRecs env iid target_groups ++
        regFailRecs env iid target_groups⟩,
     deregCalls env iid target_groups ++ regCalls env iid target_groups) := by
  unfold register_instance_to_target_groups
  rw [show target_groups.isEmpty = false by simpa using hne]
  simp only [Bool.false_eq_true, if_false]
  rw [snapshot_foldl, hp]
  have hsnap :
      ({ emptyResults with
          already_registered := emptyResults.already_registered ++
            (listedArns env).filter (isMember env iid),
          failed := emptyResults.failed ++
            (listedArns env).filterMap (healthFailFn env "describe_health") } :
        ReconcileResult) =
      ⟨[], memberArns env iid, [], healthFailRecs env "describe_health"⟩ := by
    simp [emptyResults, memberArns, healthFailRecs]
  rw [hsnap]
  rw [dereg_foldl]
  rw [reg_foldl]
  simp [deregTargets, deregSuccessArns, deregFailRecs, deregCalls, desiredArns,
    regTargets, regSuccessArns, regFailRecs, regCalls]

/-! ### Membership helpers -/

theorem mem_deregTargets_iff (env : AwsEnv) (iid a : String) (tgs : List TG) :
    a ∈ deregTargets env iid tgs ↔ a ∈ memberArns env iid ∧ a ∉ desiredArns tgs := by
  simp [deregTargets, List.mem_filter]

theorem mem_regTargets_iff (env : AwsEnv) (iid : String) (tg : TG) (tgs : List TG) :
    tg ∈ regTargets env iid tgs ↔ tg ∈ tgs ∧ tg.arn ∉ memberArns env iid := by
  simp [regTargets, List.mem_filter]

theorem mem_deregSuccess_mem_member (env : AwsEnv) (iid a : String) (tgs : List TG)
    (h : a ∈ deregSuccessArns env iid tgs) : a ∈ memberArns env iid := by
  rw [deregSuccessArns, List.mem_filter] at h
  exact ((mem_deregTargets_iff env iid a tgs).mp h.1).1

theorem mem_deregSuccess_not_desired (env : AwsEnv) (iid a : String) (tgs : List TG)
    (h : a ∈ deregSuccessArns env iid tgs) : a ∉ desiredArns tgs := by
  rw [deregSuccessArns, List.mem_filter] at h
  exact ((mem_deregTargets_iff env iid a tgs).mp h.1).2

theorem mem_regSuccess_mem_desired (env : AwsEnv) (iid a : String) (tgs : List TG)
    (h : a ∈ regSuccessArns env iid tgs) : a ∈ desiredArns tgs := by
  rw [regSuccessArns, List.mem_map] at h
  obtain ⟨tg, htg, rfl⟩ := h
  rw [List.mem_filter] at htg
  exact List.mem_map_of_mem TG.arn ((mem_regTargets_iff env iid tg tgs).mp htg.1).1

theorem healthFailRecs_spec (env : AwsEnv) (tag : String) (f : FailureRec)
    (h : f ∈ healthFailRecs env tag) :
    f.operation = tag ∧ ∃ a e, f.arn = some a ∧ a ∈ listedArns env ∧
      env.health a = Except.error e := by
  rw [healthFailRecs, List.mem_filterMap] at h
  obtain ⟨a, ha, hf⟩ := h
  rw [healthFailFn] at hf
  cases he : env.health a with
  | ok targets => rw [he] at hf; exact absurd hf (by simp)
  | error e =>
      rw [he] at hf
      cases hf
      exact ⟨rfl, a, e, rfl, ha, he⟩

theorem mem_healthFailRecs (env : AwsEnv) (tag : String) (a e : String)
    (ha : a ∈ listedArns env) (he : env.health a = Except.error e) :
    (⟨some a, tag, e⟩ : FailureRec) ∈ healthFailRecs env tag := by
  rw [healthFailRecs, List.mem_filterMap]
  exact ⟨a, ha, by rw [healthFailFn, he]⟩

theorem deregFailRecs_spec (env : AwsEnv) (iid : String) (tgs : List TG) (f : FailureRec)
    (h : f ∈ deregFailRecs env iid tgs) :
    f.operation = "deregister" ∧ ∃ a, f.arn = some a ∧ a ∈ deregTargets env iid tgs := by
  rw [deregFailRecs, List.mem_filterMap] at h
  obtain ⟨a, ha, hf⟩ := h
  rw [deregFailFn] at hf
  cases he : env.deregOutcome a with
  | ok u => rw [he] at hf; exact absurd hf (by simp)
  | error e =>
      rw [he] at hf
      cases hf
      exact ⟨rfl, a, rfl, ha⟩

theorem regFailRecs_spec (env : AwsEnv) (iid : String) (tgs : List TG) (f : FailureRec)
    (h : f ∈ regFailRecs env iid tgs) :
    f.operation = "register" ∧ ∃ tg, f.arn = some tg.arn ∧ tg ∈ regTargets env iid tgs := by
  rw [regFailRecs, List.mem_filterMap] at h
  obtain ⟨tg, htg, hf⟩ := h
  rw [regFailFn] at hf
  cases he : env.regOutcome tg.arn with
  | ok u => rw [he] at hf; exact absurd hf (by simp)
  | error e =>
      rw [he] at hf
      cases hf
      exact ⟨rfl, tg, rfl, htg⟩

theorem regFail_exists (env : AwsEnv) (iid : String) (tgs : List TG) (tg : TG)
    (htg : tg ∈ regTargets env iid tgs) (hfail : regOkB env tg.arn = false) :
    ∃ f ∈ regFailRecs env iid tgs, f.arn = some tg.arn := by
  cases he : env.regOutcome tg.arn with
  | ok u => rw [regOkB, he] at hfail; exact absurd hfail (by simp)
  | error e =>
      refine ⟨⟨some tg.arn, "register", e⟩, ?_, rfl⟩
      rw [regFailRecs, List.mem_filterMap]
      exact ⟨tg, htg, by rw [regFailFn, he]⟩

/-! ### Claim C10 -/

/-- Claim C10: for every reconcile call with a non-empty desired set, the
returned `deregistered` list is a subset of the returned
`already_registered` list, and the two buckets overlap whenever any
deregistration occurred. -/
theorem c10_deregistered_subset_already_registered (env : AwsEnv) (iid : String)
    (tgs : List TG) (hne : tgs ≠ []) :
    (∀ a ∈ (register_instance_to_target_groups env iid tgs).1.deregistered,
        a ∈ (register_instance_to_target_groups env iid tgs).1.already_registered) ∧
    ((register_instance_to_target_groups env iid tgs).1.deregistered ≠ [] →
      ∃ a, a ∈ (register_instance_to_target_groups env iid tgs).1.deregistered ∧
        a ∈ (register_instance_to_target_groups env iid tgs).1.already_registered) := by
  have hsub : ∀ a ∈ (register_instance_to_target_groups env iid tgs).1.deregistered,
      a ∈ (register_instance_to_target_groups env iid tgs).1.already_registered := by
    intro a ha
    cases hp : env.pageErr with
    | some e =>
        rw [reconcile_pageErr_eq env iid tgs hne e hp] at ha
        exact absurd ha (by simp)
    | none =>
        rw [reconcile_ok_eq env iid tgs hne hp] at ha ⊢
        exact mem_deregSuccess_mem_member env iid a tgs ha
  refine ⟨hsub, fun hnil => ?_⟩
  cases hd : (register_instance_to_target_groups env iid tgs).1.deregistered with
  | nil => exact absurd hd hnil
  | cons a t =>
      have hmem : a ∈ (register_instance_to_target_groups env iid tgs).1.deregistered := by
        rw [hd]
        exact List.mem_cons_self a t
      exact ⟨a, List.mem_cons_self a t, hsub a hmem⟩

/-- Witness for C10 at `envMemberA` with desired set `{B}`: the node is a
member of `A` only, so `A` is deregistered and also stays in
`already_registered`. -/
theorem c10_witness :
    ([(⟨"B", 80⟩ : TG)] ≠ []) ∧
    ((∀ a ∈ (register_instance_to_target_groups envMemberA "i" [⟨"B", 80⟩]).1.deregistered,
        a ∈ (register_instance_to_target_groups envMemberA "i" [⟨"B", 80⟩]).1.already_registered) ∧
     ((register_instance_to_target_groups envMemberA "i" [⟨"B", 80⟩]).1.deregistered ≠ [] →
       ∃ a, a ∈ (register_instance_to_target_groups envMemberA "i" [⟨"B", 80⟩]).1.deregistered ∧
         a ∈ (register_instance_to_target_groups envMemberA "i" [⟨"B", 80⟩]).1.already_registered)) :=
  ⟨by decide,
   c10_deregistered_subset_already_registered envMemberA "i" [⟨"B", 80⟩] (by decide)⟩

/-! ### Claim C3 -/

/-- Claim C3: with a non-empty desired set and a successful snapshot, every
member ARN not among the desired ARNs gets a deregister call, every member
ARN among the desired ARNs lands in `already_registered`, and no register
call is ever issued for a member ARN. -/
theorem c3_classification (env : AwsEnv) (iid : String) (tgs : List TG)
    (hne : tgs ≠ []) (hp : env.pageErr = none) :
    (∀ a ∈ memberArns env iid, a ∉ desiredArns tgs →
        ProviderCall.deregister a iid ∈ (register_instance_to_target_groups env iid tgs).2) ∧
    (∀ a ∈ memberArns env iid, a ∈ desiredArns tgs →
        a ∈ (register_instance_to_target_groups env iid tgs).1.already_registered) ∧
    (∀ a ∈ memberArns env iid,
        ProviderCall.register a iid ∉ (register_instance_to_target_groups env iid tgs).2) := by
  rw [reconcile_ok_eq env iid tgs hne hp]
  refine ⟨?_, ?_, ?_⟩
  · intro a ha hnd
    apply List.mem_append_left
    rw [deregCalls, List.mem_map]
    exact ⟨a, (mem_deregTargets_iff env iid a tgs).mpr ⟨ha, hnd⟩, rfl⟩
  · intro a ha _
    exact ha
  · intro a ha hc
    rcases List.mem_append.mp hc with hc | hc
    · rw [deregCalls, List.mem_map] at hc
      obtain ⟨b, _, hb⟩ := hc
      exact ProviderCall.noConfusion hb
    · rw [regCalls, List.mem_map] at hc
      obtain ⟨tg, htg, hb⟩ := hc
      have harn : tg.arn = a := by
        cases hb
        rfl
      rw [mem_regTargets_iff] at htg
      rw [harn] at htg
      exact htg.2 ha

/-- Witness for C3 at `envMemberAC` with desired set `{A}`: `C` gets a
deregister call, `A` stays in `already_registered`, and neither member ARN
gets a register call. -/
theorem c3_witness :
    (([(⟨"A", 80⟩ : TG)] ≠ []) ∧ envMemberAC.pageErr = none) ∧
    ((∀ a ∈ memberArns envMemberAC "i", a ∉ desiredArns [⟨"A", 80⟩] →
        ProviderCall.deregister a "i" ∈
          (register_instance_to_target_groups envMemberAC "i" [⟨"A", 80⟩]).2) ∧
     (∀ a ∈ memberArns envMemberAC "i", a ∈ desiredArns [⟨"A", 80⟩] →
        a ∈ (register_instance_to_target_groups envMemberAC "i" [⟨"A", 80⟩]).1.already_registered) ∧
     (∀ a ∈ memberArns envMemberAC "i",
        ProviderCall.register a "i" ∉
          (register_instance_to_target_groups envMemberAC "i" [⟨"A", 80⟩]).2)) :=
  ⟨⟨by decide, rfl⟩, c3_classification envMemberAC "i" [⟨"A", 80⟩] (by decide) rfl⟩

/-! ### Claim C6 -/

/-- Claim C6: with an empty desired set and a successful snapshot that
reports the node a member of exactly `{A, B}`, the result deregisters
exactly `{A, B}` (as a set) and has empty `registered` and
`already_registered`. -/
theorem c6_empty_desired (env : AwsEnv) (iid A B : String) (hp : env.pageErr = none)
    (hmem : ∀ x, x ∈ memberArns env iid ↔ (x = A ∨ x = B)) :
    (∀ x, x ∈ (register_instance_to_target_groups env iid []).1.deregistered ↔
        (x = A ∨ x = B)) ∧
    (register_instance_to_target_groups env iid []).1.registered = [] ∧
    (register_instance_to_target_groups env iid []).1.already_registered = [] := by
  rw [reconcile_empty_eq env iid]
  exact ⟨hmem, rfl, rfl⟩

/-- Witness for C6 at `envMemberAB`: the node is a member of exactly
`{"A", "B"}` and both are reported deregistered. -/
theorem c6_witness :
    (envMemberAB.pageErr = none ∧
      (∀ x, x ∈ memberArns envMemberAB "i" ↔ (x = "A" ∨ x = "B"))) ∧
    ((∀ x, x ∈ (register_instance_to_target_groups envMemberAB "i" []).1.deregistered ↔
        (x = "A" ∨ x = "B")) ∧
     (register_instance_to_target_groups envMemberAB "i" []).1.registered = [] ∧
     (register_instance_to_target_groups envMemberAB "i" []).1.already_registered = []) :=
  ⟨⟨rfl, fun x => by
      rw [show memberArns envMemberAB "i" = ["A", "B"] from rfl]
      simp⟩,
   c6_empty_desired envMemberAB "i" "A" "B" rfl (fun x => by
      rw [show memberArns envMemberAB "i" = ["A", "B"] from rfl]
      simp)⟩

/-! ### Claim C7 -/

/-- Claim C7: desired `{A, B}`, empty membership snapshot obtained without
any per-group failure, and a provider whose register call fails only for
`B`: the result registers `A` and reports exactly one failure, a
`register`-tagged record for `B`. -/
theorem c7_partial_failure (env : AwsEnv) (iid A B : String) (pa pb : Nat) (e : String)
    (hp : env.pageErr = none)
    (hnomem : memberArns env iid = [])
    (hnofail : healthFailRecs env "describe_health" = [])
    (hA : env.regOutcome A = Except.ok ())
    (hB : env.regOutcome B = Except.error e) :
    (register_instance_to_target_groups env iid [⟨A, pa⟩, ⟨B, pb⟩]).1.registered = [A] ∧
    (register_instance_to_target_groups env iid [⟨A, pa⟩, ⟨B, pb⟩]).1.failed =
      [⟨some B, "register", e⟩] := by
  rw [reconcile_ok_eq env iid [⟨A, pa⟩, ⟨B, pb⟩] (by simp) hp]
  have hreg : regTargets env iid [⟨A, pa⟩, ⟨B, pb⟩] = [⟨A, pa⟩, ⟨B, pb⟩] := by
    rw [regTargets, hnomem]
    simp
  have hderegT : deregTargets env iid [⟨A, pa⟩, ⟨B, pb⟩] = [] := by
    rw [deregTargets, hnomem]
    rfl
  constructor
  · rw [regSuccessArns, hreg]
    simp [regOkB, hA, hB, List.filter_cons]
  · rw [deregFailRecs, hderegT, regFailRecs, hreg, hnofail]
    simp [regFailFn, hA, hB, List.filterMap_cons]

/-- Witness for C7 at `envRegFailB` with desired `{A, B}`. -/
theorem c7_witness :
    (envRegFailB.pageErr = none ∧
     memberArns envRegFailB "i" = [] ∧
     healthFailRecs envRegFailB "describe_health" = [] ∧
     envRegFailB.regOutcome "A" = Except.ok () ∧
     envRegFailB.regOutcome "B" = Except.error "regboom") ∧
    ((register_instance_to_target_groups envRegFailB "i" [⟨"A", 80⟩, ⟨"B", 443⟩]).1.registered =
        ["A"] ∧
     (register_instance_to_target_groups envRegFailB "i" [⟨"A", 80⟩, ⟨"B", 443⟩]).1.failed =
        [⟨some "B", "register", "regboom"⟩]) :=
  ⟨⟨rfl, rfl, rfl, rfl, rfl⟩,
   c7_partial_failure envRegFailB "i" "A" "B" 80 443 "regboom" rfl rfl rfl rfl rfl⟩

/-! ### Claim C1 -/

/-- Counterexample to C1 as stated: at `envMemberA` with desired set `{B}`,
the ARN `A` of the membership snapshot appears in two result buckets at
once, `already_registered` and `deregistered`. -/
theorem c1_counterexample :
    "A" ∈ memberArns envMemberA "i" ∧
    "A" ∈ (register_instance_to_target_groups envMemberA "i" [⟨"B", 80⟩]).1.already_registered ∧
    "A" ∈ (register_instance_to_target_groups envMemberA "i" [⟨"B", 80⟩]).1.deregistered := by
  decide

/-- C1 amended: with a successful listing, every ARN of the desired set or
of the membership snapshot appears in at least one of the buckets
`registered`, `already_registered`, `deregistered` or as a failure record
carrying it — no ARN is omitted (exclusivity fails: see
`c1_counterexample`). -/
theorem c1_coverage (env : AwsEnv) (iid : String) (tgs : List TG) (a : String)
    (hp : env.pageErr = none)
    (ha : a ∈ memberArns env iid ∨ a ∈ desiredArns tgs) :
    a ∈ (register_instance_to_target_groups env iid tgs).1.registered ∨
    a ∈ (register_instance_to_target_groups env iid tgs).1.already_registered ∨
    a ∈ (register_instance_to_target_groups env iid tgs).1.deregistered ∨
    ∃ f ∈ (register_instance_to_target_groups env iid tgs).1.failed, f.arn = some a := by
  by_cases htgs : tgs = []
  · subst htgs
    rw [reconcile_empty_eq env iid]
    rcases ha with ham | had
    · exact Or.inr (Or.inr (Or.inl ham))
    · exact absurd had (by simp [desiredArns])
  · rw [reconcile_ok_eq env iid tgs htgs hp]
    rcases ha with ham | had
    · exact Or.inr (Or.inl ham)
    · by_cases hmem : a ∈ memberArns env iid
      · exact Or.inr (Or.inl hmem)
      · rw [desiredArns, List.mem_map] at had
        obtain ⟨tg, htg, rfl⟩ := had
        have hregT : tg ∈ regTargets env iid tgs :=
          (mem_regTargets_iff env iid tg tgs).mpr ⟨htg, hmem⟩
        cases hok : regOkB env tg.arn with
        | true =>
            refine Or.inl ?_
            rw [regSuccessArns, List.mem_map]
            exact ⟨tg, List.mem_filter.mpr ⟨hregT, hok⟩, rfl⟩
        | false =>
            obtain ⟨f, hf, harnf⟩ := regFail_exists env iid tgs tg hregT hok
            refine Or.inr (Or.inr (Or.inr ⟨f, ?_, harnf⟩))
            exact List.mem_append_right _ hf

/-- Witness for the amended C1 at `envMemberA` with desired set `{B}` and
the ARN `B`. -/
theorem c1_coverage_witness :
    (envMemberA.pageErr = none ∧
      ("B" ∈ memberArns envMemberA "i" ∨ "B" ∈ desiredArns [⟨"B", 80⟩])) ∧
    ("B" ∈ (register_instance_to_target_groups envMemberA "i" [⟨"B", 80⟩]).1.registered ∨
     "B" ∈ (register_instance_to_target_groups envMemberA "i" [⟨"B", 80⟩]).1.already_registered ∨
     "B" ∈ (register_instance_to_target_groups envMemberA "i" [⟨"B", 80⟩]).1.deregistered ∨
     ∃ f ∈ (register_instance_to_target_groups envMemberA "i" [⟨"B", 80⟩]).1.failed,
        f.arn = some "B") :=
  ⟨⟨rfl, by decide⟩,
   c1_coverage envMemberA "i" [⟨"B", 80⟩] "B" rfl (by decide)⟩

/-! ### Claim C2 -/

/-- Evaluation of the code at C2's failing input: desired set empty, the
provider lists one group `A` the node `"i"` is a member of, and the
deregister call would succeed. The code reports `A` as deregistered yet
issues no provider call at all — the `deregister_targets` call is commented
out in the source (src/main.py line 86) although the adjacent log line
claims a successful deregistration. -/
theorem c2_dry_run_no_call :
    (register_instance_to_target_groups envMemberA "i" []).1.deregistered = ["A"] ∧
    (register_instance_to_target_groups envMemberA "i" []).2 = [] := by
  decide

/-! ### Claim C4 -/

/-- Counterexample to C4 as stated: at `envPageFail` the listing fails after
one page was processed and the node found a member of `A`; the result's
`already_registered` is `["A"]`, not empty as the claim requires. -/
theorem c4_counterexample :
    envPageFail.pageErr = some "boom" ∧
    (register_instance_to_target_groups envPageFail "i" [⟨"B", 80⟩]).1.already_registered =
      ["A"] ∧
    ¬ ((register_instance_to_target_groups envPageFail "i" [⟨"B", 80⟩]).1.already_registered =
      []) := by
  decide

/-- C4 amended: with a non-empty desired set, a listing failure aborts the
call — `registered` and `deregistered` are empty, no mutation call is
issued, and the last failure record is tagged `describe_target_groups` with
no ARN — but `already_registered` keeps the members discovered on the pages
processed before the failure and `failed` keeps their `describe_health`
records. -/
theorem c4_abort (env : AwsEnv) (iid : String) (tgs : List TG) (e : String)
    (hne : tgs ≠ []) (hp : env.pageErr = some e) :
    (register_instance_to_target_groups env iid tgs).1.registered = [] ∧
    (register_instance_to_target_groups env iid tgs).1.deregistered = [] ∧
    (register_instance_to_target_groups env iid tgs).1.already_registered =
      memberArns env iid ∧
    (register_instance_to_target_groups env iid tgs).1.failed =
      healthFailRecs env "describe_health" ++ [⟨none, "describe_target_groups", e⟩] ∧
    (register_instance_to_target_groups env iid tgs).1.failed.getLast? =
      some ⟨none, "describe_target_groups", e⟩ ∧
    (register_instance_to_target_groups env iid tgs).2 = [] := by
  rw [reconcile_pageErr_eq env iid tgs hne e hp]
  refine ⟨rfl, rfl, rfl, rfl, ?_, rfl⟩
  exact List.getLast?_concat _

/-- Witness for the amended C4 at `envPageFail` with desired set `{B}`. -/
theorem c4_abort_witness :
    (([(⟨"B", 80⟩ : TG)] ≠ []) ∧ envPageFail.pageErr = some "boom") ∧
    ((register_instance_to_target_groups envPageFail "i" [⟨"B", 80⟩]).1.registered = [] ∧
     (register_instance_to_target_groups envPageFail "i" [⟨"B", 80⟩]).1.deregistered = [] ∧
     (register_instance_to_target_groups envPageFail "i" [⟨"B", 80⟩]).1.already_registered =
        memberArns envPageFail "i" ∧
     (register_instance_to_target_groups envPageFail "i" [⟨"B", 80⟩]).1.failed =
        healthFailRecs envPageFail "describe_health" ++
          [⟨none, "describe_target_groups", "boom"⟩] ∧
     (register_instance_to_target_groups envPageFail "i" [⟨"B", 80⟩]).1.failed.getLast? =
        some ⟨none, "describe_target_groups", "boom"⟩ ∧
     (register_instance_to_target_groups envPageFail "i" [⟨"B", 80⟩]).2 = []) :=
  ⟨⟨by decide, rfl⟩, c4_abort envPageFail "i" [⟨"B", 80⟩] "boom" (by decide) rfl⟩

/-! ### Claim C5 -/

/-- Counterexample to C5 as stated: at `envCD` (health query fails on `C`,
node a member of `D` only) with desired set `{C, D}`, the code issues a
register call for `C` and puts `C` into `registered` — the claim requires
`C` absent from `registered` and no register call for `C` for every choice
of desired set. -/
theorem c5_counterexample :
    "C" ∈ (register_instance_to_target_groups envCD "i" [⟨"C", 80⟩, ⟨"D", 80⟩]).1.registered ∧
    ProviderCall.register "C" "i" ∈
      (register_instance_to_target_groups envCD "i" [⟨"C", 80⟩, ⟨"D", 80⟩]).2 := by
  decide

/-- C5 amended: as the claim states, but only for desired sets that do not
contain `C` (when `C` is desired, the code registers it — see
`c5_counterexample`); the successful deregistration of an undesired `D` is
assumed. -/
theorem c5_isolation (env : AwsEnv) (iid C D e : String) (tgs : List TG)
    (hCl : C ∈ listedArns env) (hDl : D ∈ listedArns env)
    (hOnly : ∀ a ∈ listedArns env, a = C ∨ a = D)
    (hC : env.health C = Except.error e)
    (hD : isMember env iid D = true)
    (hp : env.pageErr = none)
    (hne : tgs ≠ [])
    (hCnd : C ∉ desiredArns tgs)
    (hDd : env.deregOutcome D = Except.ok ()) :
    (D ∈ desiredArns tgs →
      D ∈ (register_instance_to_target_groups env iid tgs).1.already_registered ∧
      D ∉ (register_instance_to_target_groups env iid tgs).1.deregistered) ∧
    (D ∉ desiredArns tgs →
      D ∈ (register_instance_to_target_groups env iid tgs).1.deregistered) ∧
    (∃ f ∈ (register_instance_to_target_groups env iid tgs).1.failed,
      f.arn = some C ∧ f.operation = "describe_health") ∧
    (∀ f ∈ (register_instance_to_target_groups env iid tgs).1.failed,
      f.arn = some C → f.operation = "describe_health") ∧
    C ∉ (register_instance_to_target_groups env iid tgs).1.registered ∧
    C ∉ (register_instance_to_target_groups env iid tgs).1.deregistered ∧
    C ∉ (register_instance_to_target_groups env iid tgs).1.already_registered ∧
    (∀ c ∈ (register_instance_to_target_groups env iid tgs).2, callArn c ≠ C) := by
  have hCm : isMember env iid C = false := by simp [isMember, hC]
  have hCmem : C ∉ memberArns env iid := by
    simp [memberArns, List.mem_filter, hCm]
  have hDmem : D ∈ memberArns env iid := by
    rw [memberArns]
    exact List.mem_filter.mpr ⟨hDl, hD⟩
  rw [reconcile_ok_eq env iid tgs hne hp]
  refine ⟨?_, ?_, ?_, ?_, ?_, ?_, ?_, ?_⟩
  · intro hDdes
    refine ⟨hDmem, fun hcon => ?_⟩
    exact mem_deregSuccess_not_desired env iid D tgs hcon hDdes
  · intro hDnd
    rw [deregSuccessArns, List.mem_filter]
    refine ⟨(mem_deregTargets_iff env iid D tgs).mpr ⟨hDmem, hDnd⟩, ?_⟩
    simp [deregOkB, hDd]
  · refine ⟨⟨some C, "describe_health", e⟩, ?_, rfl, rfl⟩
    exact List.mem_append_left _
      (List.mem_append_left _ (mem_healthFailRecs env "describe_health" C e hCl hC))
  · intro f hf harn
    rcases List.mem_append.mp hf with hf | hf
    · rcases List.mem_append.mp hf with hf | hf
      · exact (healthFailRecs_spec env "describe_health" f hf).1
      · obtain ⟨_, a, ha, haT⟩ := deregFailRecs_spec env iid tgs f hf
        rw [harn] at ha
        cases ha
        exact absurd ((mem_deregTargets_iff env iid C tgs).mp haT).1 hCmem
    · obtain ⟨_, tg, ha, haT⟩ := regFailRecs_spec env iid tgs f hf
      rw [harn] at ha
      have harn2 : tg.arn = C := by
        cases ha
        rfl
      have : tg.arn ∈ desiredArns tgs := by
        rw [desiredArns]
        exact List.mem_map_of_mem TG.arn ((mem_regTargets_iff env iid tg tgs).mp haT).1
      rw [harn2] at this
      exact absurd this hCnd
  · intro hcon
    exact hCnd (mem_regSuccess_mem_desired env iid C tgs hcon)
  · intro hcon
    exact hCmem (mem_deregSuccess_mem_member env iid C tgs hcon)
  · exact hCmem
  · intro c hc
    rcases List.mem_append.mp hc with hc | hc
    · rw [deregCalls, List.mem_map] at hc
      obtain ⟨a, haT, rfl⟩ := hc
      intro heq
      rw [callArn] at heq
      rw [heq] at haT
      exact hCmem ((mem_deregTargets_iff env iid C tgs).mp haT).1
    · rw [regCalls, List.mem_map] at hc
      obtain ⟨tg, htgT, rfl⟩ := hc
      intro heq
      rw [callArn] at heq
      have : tg.arn ∈ desiredArns tgs := by
        rw [desiredArns]
        exact List.mem_map_of_mem TG.arn ((mem_regTargets_iff env iid tg tgs).mp htgT).1
      rw [heq] at this
      exact absurd this hCnd

/-- Witness for the amended C5 at `envCD` with desired set `{D}`. -/
theorem c5_isolation_witness :
    ("C" ∈ listedArns envCD ∧ "D" ∈ listedArns envCD ∧
     (∀ a ∈ listedArns envCD, a = "C" ∨ a = "D") ∧
     envCD.health "C" = Except.error "x" ∧
     isMember envCD "i" "D" = true ∧
     envCD.pageErr = none ∧
     ([(⟨"D", 80⟩ : TG)] ≠ []) ∧
     "C" ∉ desiredArns [⟨"D", 80⟩] ∧
     envCD.deregOutcome "D" = Except.ok ()) ∧
    (("D" ∈ desiredArns [⟨"D", 80⟩] →
      "D" ∈ (register_instance_to_target_groups envCD "i" [⟨"D", 80⟩]).1.already_registered ∧
      "D" ∉ (register_instance_to_target_groups envCD "i" [⟨"D", 80⟩]).1.deregistered) ∧
     ("D" ∉ desiredArns [⟨"D", 80⟩] →
      "D" ∈ (register_instance_to_target_groups envCD "i" [⟨"D", 80⟩]).1.deregistered) ∧
     (∃ f ∈ (register_instance_to_target_groups envCD "i" [⟨"D", 80⟩]).1.failed,
        f.arn = some "C" ∧ f.operation = "describe_health") ∧
     (∀ f ∈ (register_instance_to_target_groups envCD "i" [⟨"D", 80⟩]).1.failed,
        f.arn = some "C" → f.operation = "describe_health") ∧
     "C" ∉ (register_instance_to_target_groups envCD "i" [⟨"D", 80⟩]).1.registered ∧
     "C" ∉ (register_instance_to_target_groups envCD "i" [⟨"D", 80⟩]).1.deregistered ∧
     "C" ∉ (register_instance_to_target_groups envCD "i" [⟨"D", 80⟩]).1.already_registered ∧
     (∀ c ∈ (register_instance_to_target_groups envCD "i" [⟨"D", 80⟩]).2, callArn c ≠ "C")) :=
  ⟨⟨by decide, by decide, by decide, rfl, rfl, rfl, by decide, by decide, rfl⟩,
   c5_isolation envCD "i" "C" "D" "x" [⟨"D", 80⟩] (by decide) (by decide) (by decide)
     rfl rfl rfl (by decide) (by decide) rfl⟩

/-! ### Claim C8 -/

theorem tg_project_eq (l : List RawTG) :
    l.filterMap (fun tg =>
        match tg.arn, tg.port with
        | some a, some p => if a ≠ "" ∧ p ≠ 0 then some ⟨a, p⟩ else none
        | some _, none => none
        | none, _ => none) =
    (l.filter (fun tg => truthyArn tg.arn && truthyPort tg.port)).map
      (fun tg => (⟨tg.arn.getD "", tg.port.getD 0⟩ : TG)) := by
  induction l with
  | nil => rfl
  | cons tg t ih =>
      rw [List.filterMap_cons, List.filter_cons]
      cases harn : tg.arn with
      | none => simp [truthyArn, harn, ih]
      | some a =>
          cases hport : tg.port with
          | none => simp [truthyArn, truthyPort, harn, hport, ih]
          | some p =>
              by_cases ha : a = ""
              · simp [truthyArn, truthyPort, harn, hport, ha, ih]
              · by_cases hq : p = 0
                · simp [truthyArn, truthyPort, harn, hport, ha, hq, ih]
                · simp [truthyArn, truthyPort, harn, hport, ha, hq, ih]

/-- Claim C8: `get_target_groups_for_node` returns exactly the entries whose
`arn` and `port` are both present and non-empty (Python truthiness, so a
present port 0 also drops the entry), projected to arn and port in source
order; entries missing either field are dropped without error. -/
theorem c8_filter_projection (data : Option NodeConfigData) :
    get_target_groups_for_node data = claimTargetGroups data := by
  cases data with
  | none => rfl
  | some d =>
      rw [get_target_groups_for_node, claimTargetGroups]
      exact tg_project_eq d.targetGroups

/-! ### Claim C9 -/

theorem reconcile_calls_iid (env : AwsEnv) (iid : String) (tgs : List TG) :
    ∀ c ∈ (register_instance_to_target_groups env iid tgs).2, callInstanceId c = iid := by
  intro c hc
  by_cases htgs : tgs = []
  · subst htgs
    rw [reconcile_empty_eq] at hc
    exact absurd hc (by simp)
  · cases hp : env.pageErr with
    | some e =>
        rw [reconcile_pageErr_eq env iid tgs htgs e hp] at hc
        exact absurd hc (by simp)
    | none =>
        rw [reconcile_ok_eq env iid tgs htgs hp] at hc
        rcases List.mem_append.mp hc with hc | hc
        · rw [deregCalls, List.mem_map] at hc
          obtain ⟨a, _, rfl⟩ := hc
          rfl
        · rw [regCalls, List.mem_map] at hc
          obtain ⟨tg, _, rfl⟩ := hc
          rfl

theorem main_foldl_eq (menv : MainEnv) (l : List Node) (init : List ProviderCall) :
    l.foldl (fun acc node => acc ++ processNode menv node) init =
    init ++ (l.map (processNode menv)).flatten := by
  induction l generalizing init with
  | nil => simp
  | cons n t ih =>
      rw [List.foldl_cons, ih]
      simp

theorem processNode_calls (menv : MainEnv) (n : Node) :
    ∀ c ∈ processNode menv n, eligibleNode n = true ∧ callInstanceId c = n.instanceId := by
  intro c hc
  rw [processNode] at hc
  cases he : eligibleNode n with
  | false =>
      rw [he] at hc
      exact absurd hc (by simp)
  | true =>
      rw [he] at hc
      simp only [if_true] at hc
      cases hcfg : menv.nodeConfig n.configId with
      | error err =>
          rw [hcfg] at hc
          exact absurd hc (by simp)
      | ok data =>
          rw [hcfg] at hc
          exact ⟨rfl, reconcile_calls_iid (menv.aws n.instanceId) n.instanceId
            (get_target_groups_for_node data) c hc⟩

/-- Claim C9: during one cycle, a fetched node that is ineligible (not
cast.ai-managed or not ready) never has a provider mutation call issued for
its instance id (assuming no eligible node shares that instance id). -/
theorem c9_skip_ineligible (menv : MainEnv) (nodes : List Node) (n : Node)
    (hfetch : menv.nodesResult = Except.ok nodes)
    (hn : n ∈ nodes)
    (hinel : eligibleNode n = false)
    (huniq : ∀ m ∈ nodes, eligibleNode m = true → m.instanceId ≠ n.instanceId) :
    ∀ c ∈ main menv, callInstanceId c ≠ n.instanceId := by
  intro c hc
  simp only [main, hfetch] at hc
  rw [main_foldl_eq] at hc
  simp only [List.nil_append] at hc
  rw [List.mem_flatten] at hc
  obtain ⟨calls, hcalls, hcc⟩ := hc
  rw [List.mem_map] at hcalls
  obtain ⟨m, hm, rfl⟩ := hcalls
  obtain ⟨hel, hiid⟩ := processNode_calls menv m c hcc
  rw [hiid]
  exact huniq m hm hel

/-- Witness for C9 at `menvCycle`: the unmanaged node's instance id never
appears in the cycle's mutation-call trace (which is non-empty, since the
eligible node deregisters from `A` and registers to `B`). -/
theorem c9_witness :
    (menvCycle.nodesResult = Except.ok [nodeEligible, nodeUnmanaged, nodeNotReady] ∧
     nodeUnmanaged ∈ [nodeEligible, nodeUnmanaged, nodeNotReady] ∧
     eligibleNode nodeUnmanaged = false ∧
     (∀ m ∈ [nodeEligible, nodeUnmanaged, nodeNotReady],
        eligibleNode m = true → m.instanceId ≠ nodeUnmanaged.instanceId)) ∧
    (∀ c ∈ main menvCycle, callInstanceId c ≠ nodeUnmanaged.instanceId) :=
  ⟨⟨rfl, by decide, by decide, by decide⟩,
   c9_skip_ineligible menvCycle [nodeEligible, nodeUnmanaged, nodeNotReady] nodeUnmanaged
     rfl (by decide) (by decide) (by decide)⟩

end TGBinder
